import Mathlib

/-!
Verification model of `wotd.py`, a Wiktionary "Word of the day" batch bot.

The script reads one archive page per month, splits it into per-day
sections with `re.split` on the pattern `==\s*(\d+)\s*==`, creates and
protects one target page per valid section, and rewrites the source
archive page when no section was invalid.  The wiki backend
(`pywikibot`) is modelled by explicit records of the answers its calls
would return (and whether they raise `pywikibot.Error`); the observable
behaviour of the script is modelled as the list of attempted backend
write calls (`save` / `protect`) plus whether an uncaught exception
propagates.  Characters are modelled at the ASCII level: the whitespace
class is the six ASCII whitespace characters and the digit class is
`0`-`9`, which is what matters for the inputs considered here.
-/

/-- The six ASCII characters matched by the regex class `\s` and
stripped by `str.strip()`. -/
def isSpaceChar (c : Char) : Bool :=
  c = ' ' || c = '\t' || c = '\n' || c = '\r' || c = '\x0b' || c = '\x0c'

/-- The characters matched by the regex class `\d` (ASCII digits). -/
def isDigitChar (c : Char) : Bool :=
  decide ('0' ≤ c) && decide (c ≤ '9')

/-- Python `str.strip()`: drop leading and trailing whitespace. -/
def pyStrip (s : String) : String :=
  String.mk (((s.data.dropWhile isSpaceChar).reverse.dropWhile isSpaceChar).reverse)

/-- Python `str.lower()` restricted to ASCII letters. -/
def pyLower (c : Char) : Char :=
  if decide ('A' ≤ c) && decide (c ≤ 'Z') then Char.ofNat (c.toNat + 32) else c

/-- Python substring containment `pat in s` on character lists. -/
def containsSub (pat l : List Char) : Bool :=
  l.tails.any (fun t => pat.isPrefixOf t)

/-- The day-entry template marker: the Python literal `'{{wotd'`. -/
def wotdMarker : List Char := "\x7b\x7bwotd".data

/-- `'{{wotd' in content.lower()` from line 101 of `wotd.py`. -/
def hasMarker (content : String) : Bool :=
  containsSub wotdMarker (content.data.map pyLower)

/-- The validity test of line 101, `content and '{{wotd' in content.lower()`:
the (already stripped) content is non-empty and contains the marker
case-insensitively. -/
def isValidContent (content : String) : Bool :=
  !content.isEmpty && hasMarker content

/-- One attempted match of the regex `==\s*(\d+)\s*==` at the head of the
input: literal `==`, then a maximal whitespace run, a maximal non-empty
digit run (the capture group), a maximal whitespace run, and literal
`==`.  Maximal runs are faithful here because the character classes of
adjacent pattern pieces are disjoint, so the backtracking engine can
never succeed with a shorter run.  Returns the captured digits and the
input remaining after the match. -/
def matchHeading : List Char → Option (String × List Char)
  | '=' :: '=' :: rest =>
    if ((rest.dropWhile isSpaceChar).takeWhile isDigitChar).isEmpty then none
    else
      match ((rest.dropWhile isSpaceChar).dropWhile isDigitChar).dropWhile isSpaceChar with
      | '=' :: '=' :: rest2 =>
        some (String.mk ((rest.dropWhile isSpaceChar).takeWhile isDigitChar), rest2)
      | _ => none
  | _ => none

/-- The left-to-right scan of `re.split`: `acc` holds (reversed) the text
since the previous match; at each position the heading pattern is tried,
and on a match the pending text and the capture are emitted.  The `fuel`
argument only bounds the recursion; every step consumes at least one
input character, so `fuel = input length` never runs out. -/
def scanSplitAux : Nat → List Char → List Char → List String
  | _, acc, [] => [String.mk acc.reverse]
  | 0, acc, l => [String.mk (acc.reverse ++ l)]
  | fuel + 1, acc, c :: rest =>
    match matchHeading (c :: rest) with
    | some (day, after) => String.mk acc.reverse :: day :: scanSplitAux fuel [] after
    | none => scanSplitAux fuel (c :: acc) rest

/-- `re.split(r'==\s*(\d+)\s*==', wikitext)` from line 92 of `wotd.py`:
the pieces of text between matches, with each capture group inserted
between its neighbouring pieces. -/
def reSplit (wikitext : String) : List String :=
  scanSplitAux wikitext.data.length [] wikitext.data

/-- The loop of lines 97-99: pair `sections[i]` (a captured day numeral)
with `sections[i+1].strip()` for odd `i`.  The input here is the split
list with its head (the text before the first heading) removed. -/
def pairsAux : List String → List (String × String)
  | d :: c :: rest => (d, pyStrip c) :: pairsAux rest
  | _ => []

/-- The (day numeral, stripped content) pairs the orchestrator iterates
over for a given month wikitext. -/
def sectionPairs (wikitext : String) : List (String × String) :=
  pairsAux (reSplit wikitext).tail

/-- One work item handed to `process_one_day` (the per-day fields of the
`task_info` dict; the shared `site`, `dry_run` and summary fields are
passed separately). -/
structure PageTask where
  year : Nat
  month_name : String
  day : String
  content : String
deriving DecidableEq, Repr

/-- The loop of lines 97-110: build the task list in order and record in
`was_section_skipped` whether some non-empty section lacked the marker. -/
def buildTasks (year : Nat) (month_name : String) : List (String × String) → List PageTask × Bool
  | [] => ([], false)
  | (day, content) :: rest =>
    let r := buildTasks year month_name rest
    if isValidContent content then (⟨year, month_name, day, content⟩ :: r.1, r.2)
    else if !content.isEmpty then (r.1, true)
    else r

/-- An attempted backend write call (`page.save` or `page.protect`). -/
inductive WriteEvent where
  | save (title content summary : String)
  | protect (title reason : String)
deriving DecidableEq, Repr

/-- The answers the wiki backend would give to the calls `process_one_day`
makes for one target page, including whether each call raises
`pywikibot.Error`. -/
structure DayBackend where
  existsRaises : Bool
  pageExists : Bool
  saveRaises : Bool
  protectionRaises : Bool
  protectionEdit : Option String
  protectRaises : Bool
deriving DecidableEq, Repr

/-- Observable result of one `process_one_day` call: the backend write
calls it attempted, in order, and whether an uncaught exception
propagated out of the function. -/
structure DayResult where
  events : List WriteEvent
  raised : Bool
deriving DecidableEq, Repr

/-- Line 28 of `wotd.py`:
`f"Wiktionary:Word of the day/{year}/{month_name} {day}"`. -/
def target_page_title (year : Nat) (month_name day : String) : String :=
  "Wiktionary:Word of the day/" ++ toString year ++ "/" ++ month_name ++ " " ++ day

/-- Line 83 of `wotd.py`:
`f"Wiktionary:Word of the day/Archive/{year}/{month_name}"`. -/
def source_page_title (year : Nat) (month_name : String) : String :=
  "Wiktionary:Word of the day/Archive/" ++ toString year ++ "/" ++ month_name

/-- Lines 58-75 of `wotd.py`: the protection block.  The protection query
and the protect call sit in one `try`; if the query raises, the protect
call is never reached; if the edit level is already `sysop` nothing is
done; a raising protect call is caught and only logged (so the attempt
is still recorded). -/
def protectStep (b : DayBackend) (title protect_reason : String) : List WriteEvent :=
  if b.protectionRaises then []
  else if b.protectionEdit ≠ some "sysop" then [WriteEvent.protect title protect_reason]
  else []

/-- Lines 18-75 of `wotd.py`, `process_one_day`.  The `target_page.exists()`
call of line 35 is outside any `try`, so a backend error there
propagates; the creation `try` of lines 45-53 returns from the function
on error (skipping the protection block); the protection block runs only
when not in dry-run mode. -/
def process_one_day (b : DayBackend) (dry_run : Bool) (t : PageTask)
    (create_summary protect_reason : String) : DayResult :=
  let title := target_page_title t.year t.month_name t.day
  if b.existsRaises then ⟨[], true⟩
  else
    let creationEvents :=
      if !b.pageExists && !dry_run then [WriteEvent.save title t.content create_summary] else []
    if !b.pageExists && !dry_run && b.saveRaises then ⟨creationEvents, false⟩
    else ⟨creationEvents ++ (if !dry_run then protectStep b title protect_reason else []), false⟩

/-- Summary string of line 79. -/
def create_summary (month_name : String) (year : Nat) : String :=
  "Creating Word of the Day page from the " ++ month_name ++ " " ++ toString year ++ " archive."

/-- Reason string of line 80. -/
def protect_reason : String := "Protecting created Word of the Day page."

/-- Line 134 of `wotd.py`:
`f"{{{{WOTD month archive|{year}|{{{{SUBPAGENAME}}}}}}}}"`. -/
def archiveTemplate (year : Nat) : String :=
  "\x7b\x7bWOTD month archive|" ++ toString year ++ "|\x7b\x7bSUBPAGENAME\x7d\x7d\x7d\x7d"

/-- The answers the backend gives for one month's source archive page.
The archive `save` of line 138 sits in a `try` whose handler only logs,
so `archiveSaveRaises` changes no observable tracked here. -/
structure MonthBackend where
  sourceExists : Bool
  sourceText : String
  archiveSaveRaises : Bool
deriving DecidableEq, Repr

/-- Observable result of `run_wotd_processing_for_month`: the tasks built,
the per-task day results (the thread pool joins before the archive
decision, and day order does not affect any aggregate used here), and
the text written over the source page when the archive save is
attempted (`none` when it is not). -/
structure MonthResult where
  tasks : List PageTask
  dayResults : List DayResult
  archiveText : Option String
deriving DecidableEq, Repr

/-- Lines 78-147 of `wotd.py`, `run_wotd_processing_for_month`.  `dayBE i`
gives the backend answers for the page of the i-th task. -/
def run_wotd_processing_for_month (mb : MonthBackend) (dayBE : Nat → DayBackend)
    (year : Nat) (month_name : String) (dry_run : Bool) : MonthResult :=
  if !mb.sourceExists then ⟨[], [], none⟩
  else
    let tb := buildTasks year month_name (sectionPairs mb.sourceText)
    if tb.1.isEmpty then ⟨tb.1, [], none⟩
    else
      let results := tb.1.enum.map
        (fun p => process_one_day (dayBE p.1) dry_run p.2 (create_summary month_name year) protect_reason)
      if tb.2 then ⟨tb.1, results, none⟩
      else if !dry_run then ⟨tb.1, results, some (archiveTemplate year)⟩
      else ⟨tb.1, results, none⟩

/-- Line 14 of `wotd.py`. -/
def DEFAULT_DRY_RUN : Bool := false

/-- Lines 151-153 of `wotd.py`: the dry-run flag handed to the month
orchestrator is `False` when `-live` is among the arguments and
`DEFAULT_DRY_RUN` otherwise. -/
def mainIsDryRun (argv : List String) : Bool :=
  if argv.contains "-live" then false else DEFAULT_DRY_RUN

/-- Lines 154 and 157 of `wotd.py`: the mode banner printed by `main`. -/
def mainModeBanner (argv : List String) : String :=
  if argv.contains "-live" then
    "*** LIVE MODE: Edits will be saved to Wiktionary! ***"
  else
    "*** DRY RUN MODE: No edits will be made. Use -live argument to save. ***"

/-- Lines 9-12 of `wotd.py`. -/
def START_YEAR : Nat := 2006

/-- Configured first month of the range. -/
def START_MONTH : Nat := 1

/-- Configured last year of the range. -/
def END_YEAR : Nat := 2011

/-- Configured last month of the range. -/
def END_MONTH : Nat := 12

/-- Line 169 of `wotd.py`: `year > now.year or (year == now.year and
month_num > now.month)`. -/
def monthIsFuture (nowY nowM y m : Nat) : Bool :=
  decide (y > nowY) || (decide (y = nowY) && decide (m > nowM))

/-- The inner month range of lines 165-168 for one year of the outer
loop: `range(month_start_num, month_end_num + 1)` paired with the year. -/
def monthsOfYear (sy sm ey em y : Nat) : List (Nat × Nat) :=
  (List.range' (if y = sy then sm else 1)
      ((if y = ey then em else 12) + 1 - (if y = sy then sm else 1))).map (fun m => (y, m))

/-- The full iteration order of the nested loops of lines 164-168:
`range(START_YEAR, END_YEAR + 1)` with the per-year month range. -/
def rangeMonths (sy sm ey em : Nat) : List (Nat × Nat) :=
  ((List.range' sy (ey + 1 - sy)).map (monthsOfYear sy sm ey em)).flatten

/-- Lines 168-180: walk the iteration order; at the first pair that is
in the future the whole function returns (both loops end), otherwise the
pair is processed.  Returns the processed pairs in order. -/
def driveMonths (nowY nowM : Nat) : List (Nat × Nat) → List (Nat × Nat)
  | [] => []
  | p :: rest =>
    if monthIsFuture nowY nowM p.1 p.2 then [] else p :: driveMonths nowY nowM rest

/-- The (year, month) pairs `main` hands to the month orchestrator, in
order, for a given current date. -/
def visitedMonths (nowY nowM sy sm ey em : Nat) : List (Nat × Nat) :=
  driveMonths nowY nowM (rangeMonths sy sm ey em)

/-- Strict chronological order on (year, month) pairs. -/
def monthLt (a b : Nat × Nat) : Prop :=
  a.1 < b.1 ∨ (a.1 = b.1 ∧ a.2 < b.2)

/-- The backend-visible state of one wiki page, for the idempotence
argument. -/
structure PageState where
  pageExists : Bool
  editLevel : Option String
  moveLevel : Option String
deriving DecidableEq, Repr

/-- A backend that answers queries from the page state and never raises. -/
def honestBackend (w : PageState) : DayBackend :=
  ⟨false, w.pageExists, false, false, w.editLevel, false⟩

/-- Effect of one successful write call on the page state: `save` makes
the page exist, `protect` sets edit and move protection to `sysop`. -/
def applyEvent (w : PageState) : WriteEvent → PageState
  | WriteEvent.save _ _ _ => ⟨true, w.editLevel, w.moveLevel⟩
  | WriteEvent.protect _ _ => ⟨w.pageExists, some "sysop", some "sysop"⟩

/-- Effect of a sequence of write calls on the page state. -/
def applyEvents (w : PageState) (es : List WriteEvent) : PageState :=
  es.foldl applyEvent w

/-- Demonstration task and backends reused by several witnesses. -/
def tDemo : PageTask := ⟨2006, "January", "1", "\x7b\x7bwotd|fox\x7d\x7d"⟩

/-- A backend for a page that does not exist yet and where no call raises. -/
def beFresh : DayBackend := ⟨false, false, false, false, none, false⟩

/-- In dry-run mode `process_one_day` attempts no backend write call. -/
theorem dryDayEvents (b : DayBackend) (t : PageTask) (cs pr : String) :
    (process_one_day b true t cs pr).events = [] := by
  cases hE : b.existsRaises <;> simp [process_one_day, hE]

/-- Claim C1: the code contradicts the claimed (and self-announced) safe
default.  With `-live` absent the dry-run flag handed to the orchestrator
is `false` (live), because `DEFAULT_DRY_RUN = false`, even though `main`
prints the dry-run banner in exactly that case; with `-live` present it
is also `false`. -/
theorem default_mode_is_live_despite_banner :
    mainIsDryRun ["pwb.py", "wotd"] = false ∧
    mainModeBanner ["pwb.py", "wotd"] =
      "*** DRY RUN MODE: No edits will be made. Use -live argument to save. ***" ∧
    mainIsDryRun ["pwb.py", "wotd", "-live"] = false := by
  decide

/-- The day results the orchestrator collects: one `process_one_day`
outcome per task (in task order) when the source page exists and some
task was built, nothing otherwise. -/
theorem monthDayResults (mb : MonthBackend) (dayBE : Nat → DayBackend) (year : Nat)
    (mn : String) (dry : Bool) :
    (run_wotd_processing_for_month mb dayBE year mn dry).dayResults =
      (if mb.sourceExists && !(buildTasks year mn (sectionPairs mb.sourceText)).1.isEmpty then
        ((buildTasks year mn (sectionPairs mb.sourceText)).1.enum.map
          (fun p => process_one_day (dayBE p.1) dry p.2 (create_summary mn year) protect_reason))
      else []) := by
  cases hS : mb.sourceExists <;>
    cases hE : (buildTasks year mn (sectionPairs mb.sourceText)).1.isEmpty <;>
    cases h2 : (buildTasks year mn (sectionPairs mb.sourceText)).2 <;>
    cases hd : dry <;>
    simp [run_wotd_processing_for_month, hS, hE, h2, hd]

/-- All day results of a dry-run dispatch have empty write lists. -/
theorem allDayResultsEmpty (dayBE : Nat → DayBackend) (cs pr : String) (ts : List PageTask) :
    ((ts.enum.map (fun p => process_one_day (dayBE p.1) true p.2 cs pr)).all
      (fun r => r.events.isEmpty)) = true := by
  rw [List.all_eq_true]
  intro r hr
  obtain ⟨x, hx, rfl⟩ := List.mem_map.mp hr
  simp [dryDayEvents]

/-- Claim C3: with the dry-run flag true no backend write happens: a
single day run attempts no save and no protect, the orchestrator never
attempts the archive save, and every day result it collects has an empty
write list — for every backend answer, page state and month text. -/
theorem dry_run_no_writes (b : DayBackend) (t : PageTask) (cs pr : String)
    (mb : MonthBackend) (dayBE : Nat → DayBackend) (year : Nat) (mn : String) :
    (process_one_day b true t cs pr).events = [] ∧
    (run_wotd_processing_for_month mb dayBE year mn true).archiveText = none ∧
    ((run_wotd_processing_for_month mb dayBE year mn true).dayResults.all
      (fun r => r.events.isEmpty)) = true := by
  refine ⟨dryDayEvents b t cs pr, ?_, ?_⟩
  · cases hS : mb.sourceExists
    · simp [run_wotd_processing_for_month, hS]
    · cases hE : (buildTasks year mn (sectionPairs mb.sourceText)).1.isEmpty <;>
        cases h2 : (buildTasks year mn (sectionPairs mb.sourceText)).2 <;>
        simp [run_wotd_processing_for_month, hS, hE, h2]
  · rw [monthDayResults]
    cases hc : (mb.sourceExists && !(buildTasks year mn (sectionPairs mb.sourceText)).1.isEmpty)
    · rw [if_neg (by simp)]
      rfl
    · rw [if_pos rfl]
      exact allDayResultsEmpty dayBE (create_summary mn year) protect_reason _

/-- Claim C5: if after a first live run against an honest backend the
page exists and its edit protection is already `sysop`, a second live
run on the same task attempts zero writes and raises nothing. -/
theorem day_processor_idempotent (w : PageState) (t : PageTask) (cs pr : String)
    (h1 : (applyEvents w (process_one_day (honestBackend w) false t cs pr).events).pageExists
      = true)
    (h2 : (applyEvents w (process_one_day (honestBackend w) false t cs pr).events).editLevel
      = some "sysop") :
    process_one_day
      (honestBackend (applyEvents w (process_one_day (honestBackend w) false t cs pr).events))
      false t cs pr = ⟨[], false⟩ := by
  set E := (process_one_day (honestBackend w) false t cs pr).events with hEdef
  simp [process_one_day, protectStep, honestBackend, h1, h2]

/-- Witness for C5 at a page that run 1 creates and protects. -/
theorem day_processor_idempotent_witness :
    process_one_day
      (honestBackend (applyEvents ⟨false, none, none⟩
        (process_one_day (honestBackend ⟨false, none, none⟩) false tDemo "cs" "pr").events))
      false tDemo "cs" "pr" = ⟨[], false⟩ :=
  day_processor_idempotent ⟨false, none, none⟩ tDemo "cs" "pr" (by decide) (by decide)

/-- Claim C6: in live mode, when the existence check itself does not
raise, a raising creation save is caught: the only attempted write is
that save, the protection step is skipped, and the function returns
normally; and whatever the backend does, no error from the save or
protect calls propagates (`raised = false`). -/
theorem day_processor_error_handling (b : DayBackend) (t : PageTask) (cs pr : String)
    (hne : b.existsRaises = false) :
    (b.pageExists = false → b.saveRaises = true →
      process_one_day b false t cs pr =
        ⟨[WriteEvent.save (target_page_title t.year t.month_name t.day) t.content cs], false⟩) ∧
    (process_one_day b false t cs pr).raised = false := by
  constructor
  · intro hp hs
    simp [process_one_day, hne, hp, hs]
  · cases hp : b.pageExists <;> cases hs : b.saveRaises <;>
      simp [process_one_day, hne, hp, hs]

/-- Witness for C6: a failing creation save on a fresh page. -/
theorem day_processor_error_handling_witness :
    process_one_day ⟨false, false, true, false, none, false⟩ false tDemo "cs" "pr" =
      ⟨[WriteEvent.save (target_page_title tDemo.year tDemo.month_name tDemo.day)
          tDemo.content "cs"], false⟩ :=
  (day_processor_error_handling ⟨false, false, true, false, none, false⟩ tDemo "cs" "pr" rfl).1
    rfl rfl

/-- Claim C9: a backend error raised by the `exists()` check propagates
out of `process_one_day` (before any write is attempted), while with a
non-raising existence check no error ever propagates. -/
theorem exists_check_error_propagates (b : DayBackend) (dry : Bool) (t : PageTask)
    (cs pr : String) :
    (b.existsRaises = true → process_one_day b dry t cs pr = ⟨[], true⟩) ∧
    (b.existsRaises = false → (process_one_day b dry t cs pr).raised = false) := by
  constructor
  · intro h
    simp [process_one_day, h]
  · intro h
    cases hp : b.pageExists <;> cases hd : dry <;> cases hs : b.saveRaises <;>
      simp [process_one_day, h, hp, hd, hs]

/-- Witness for C9: a raising existence check on an otherwise healthy
backend. -/
theorem exists_check_error_propagates_witness :
    process_one_day ⟨true, false, false, false, none, false⟩ false tDemo "cs" "pr" =
      ⟨[], true⟩ :=
  (exists_check_error_propagates ⟨true, false, false, false, none, false⟩ false tDemo
    "cs" "pr").1 rfl

/-- Tasks are exactly the valid pairs, in order, and the skipped flag is
set exactly when some pair is non-empty without the marker, for any pair
list (the loop of lines 97-110 as filter / any). -/
theorem buildTasksAuxSpec (year : Nat) (mn : String) : ∀ ps : List (String × String),
    (buildTasks year mn ps).1 =
      (ps.filter (fun p => isValidContent p.2)).map (fun p => ⟨year, mn, p.1, p.2⟩) ∧
    (buildTasks year mn ps).2 = ps.any (fun p => !p.2.isEmpty && !hasMarker p.2)
  | [] => by simp [buildTasks]
  | (d, c) :: rest => by
    have ih := buildTasksAuxSpec year mn rest
    cases he : c.isEmpty <;> cases hh : hasMarker c <;>
      simp [buildTasks, isValidContent, he, hh, ih.1, ih.2]

/-- Every content in the produced pairs is the `strip()` of some raw
section text (lines 97-99 strip each content as it is read). -/
theorem pairsAuxTrimmed : ∀ l : List String, ∀ p ∈ pairsAux l, ∃ raw : String, p.2 = pyStrip raw
  | [], p, hp => by simp [pairsAux] at hp
  | [x], p, hp => by simp [pairsAux] at hp
  | d :: c :: rest, p, hp => by
    rcases (by simpa [pairsAux] using hp : p = (d, pyStrip c) ∨ p ∈ pairsAux rest) with h | h
    · exact ⟨c, by rw [h]⟩
    · exact pairsAuxTrimmed rest p h

/-- Claim C4: over the pairs the splitter produces for any month text,
the orchestrator creates a task exactly for the pairs whose (trimmed)
content passes `isValidContent` — non-empty and containing the marker
case-insensitively — and sets the skipped-invalid flag exactly when some
pair is non-empty without the marker; empty pairs therefore do neither,
and every pair content is whitespace-trimmed raw section text. -/
theorem splitter_validity (wikitext : String) (year : Nat) (mn : String) :
    (buildTasks year mn (sectionPairs wikitext)).1 =
      ((sectionPairs wikitext).filter (fun p => isValidContent p.2)).map
        (fun p => ⟨year, mn, p.1, p.2⟩) ∧
    (buildTasks year mn (sectionPairs wikitext)).2 =
      (sectionPairs wikitext).any (fun p => !p.2.isEmpty && !hasMarker p.2) ∧
    ∀ p ∈ sectionPairs wikitext, ∃ raw : String, p.2 = pyStrip raw :=
  ⟨(buildTasksAuxSpec year mn (sectionPairs wikitext)).1,
   (buildTasksAuxSpec year mn (sectionPairs wikitext)).2,
   pairsAuxTrimmed (reSplit wikitext).tail⟩

/-- Witness for C4 at a month text with one valid and one empty section. -/
theorem splitter_validity_witness :
    ∃ raw : String, (("2", "") : String × String).2 = pyStrip raw :=
  (splitter_validity "==1==\n\x7b\x7bwotd|fox\x7d\x7d\n==2==\n \n" 2006 "January").2.2
    ("2", "") (by decide)

/-- A source month page whose text produces no pair at all. -/
def mbNoPairs : MonthBackend := ⟨true, "Nothing to see here.", false⟩

/-- A source month page with one valid section and one empty section. -/
def mbEmptySection : MonthBackend := ⟨true, "==1==\n\x7b\x7bwotd|fox\x7d\x7d\n==2==\n \n", false⟩

/-- Counterexample to C2 as stated (rewrite iff every produced pair
valid): a month text producing no pairs has every produced pair
(vacuously) valid yet is never archived, and a month with a valid pair
plus an empty (hence not valid) pair is archived anyway. -/
theorem archive_gate_claim_cx :
    ((sectionPairs mbNoPairs.sourceText).all (fun p => isValidContent p.2) = true ∧
      (run_wotd_processing_for_month mbNoPairs (fun _ => beFresh) 2006 "January"
        false).archiveText = none) ∧
    ((sectionPairs mbEmptySection.sourceText).all (fun p => isValidContent p.2) = false ∧
      (run_wotd_processing_for_month mbEmptySection (fun _ => beFresh) 2006 "January"
        false).archiveText = some (archiveTemplate 2006)) := by
  decide

/-- Claim C2 (amended): in live mode with an existing source page, the
source archive page is overwritten with the archive-template invocation
iff at least one task was built (some valid pair) and no pair set the
skipped-invalid flag — for every assignment of per-day backend outcomes,
so per-day creation or protection failures never suppress the rewrite. -/
theorem month_archive_gate (mb : MonthBackend) (dayBE : Nat → DayBackend) (year : Nat)
    (mn : String) (hex : mb.sourceExists = true) :
    (run_wotd_processing_for_month mb dayBE year mn false).archiveText =
      (if (buildTasks year mn (sectionPairs mb.sourceText)).1.isEmpty
          || (buildTasks year mn (sectionPairs mb.sourceText)).2
       then none else some (archiveTemplate year)) := by
  cases hE : (buildTasks year mn (sectionPairs mb.sourceText)).1.isEmpty <;>
    cases h2 : (buildTasks year mn (sectionPairs mb.sourceText)).2 <;>
    simp [run_wotd_processing_for_month, hex, hE, h2]

/-- Witness for C2 (amended) at the month with an empty second section. -/
theorem month_archive_gate_witness :
    (run_wotd_processing_for_month mbEmptySection (fun _ => beFresh) 2006 "January"
      false).archiveText =
      (if (buildTasks 2006 "January" (sectionPairs mbEmptySection.sourceText)).1.isEmpty
          || (buildTasks 2006 "January" (sectionPairs mbEmptySection.sourceText)).2
       then none else some (archiveTemplate 2006)) :=
  month_archive_gate mbEmptySection (fun _ => beFresh) 2006 "January" rfl

/-- A month text with two headings carrying the same day number. -/
def wtDup : String := "==1==\n\x7b\x7bwotd|alpha\x7d\x7d\n==1==\n\x7b\x7bwotd|beta\x7d\x7d"

/-- Claim C10: no deduplication of day numbers: a month text with two
valid sections headed by the same day number yields two distinct tasks
whose target page titles are identical, and both are dispatched to the
day processor. -/
theorem duplicate_days_no_dedup :
    (run_wotd_processing_for_month ⟨true, wtDup, false⟩ (fun _ => beFresh) 2006 "January"
        false).tasks =
      [⟨2006, "January", "1", "\x7b\x7bwotd|alpha\x7d\x7d"⟩,
       ⟨2006, "January", "1", "\x7b\x7bwotd|beta\x7d\x7d"⟩] ∧
    ((run_wotd_processing_for_month ⟨true, wtDup, false⟩ (fun _ => beFresh) 2006 "January"
        false).tasks.map (fun t => target_page_title t.year t.month_name t.day)) =
      ["Wiktionary:Word of the day/2006/January 1",
       "Wiktionary:Word of the day/2006/January 1"] ∧
    (run_wotd_processing_for_month ⟨true, wtDup, false⟩ (fun _ => beFresh) 2006 "January"
        false).dayResults.length = 2 := by
  decide

/-- Being in the future is upward closed along chronological order. -/
theorem monthIsFuture_mono {nowY nowM : Nat} {a b : Nat × Nat} (hab : monthLt a b)
    (ha : monthIsFuture nowY nowM a.1 a.2 = true) :
    monthIsFuture nowY nowM b.1 b.2 = true := by
  simp only [monthLt] at hab
  simp only [monthIsFuture, Bool.or_eq_true, Bool.and_eq_true, decide_eq_true_eq] at ha ⊢
  omega

/-- The processed pairs form a sub-sequence of the iteration order. -/
theorem driveMonths_sublist (nowY nowM : Nat) : ∀ l, (driveMonths nowY nowM l).Sublist l
  | [] => List.Sublist.refl _
  | p :: rest => by
    by_cases h : monthIsFuture nowY nowM p.1 p.2 = true
    · simp [driveMonths, h]
    · simp only [driveMonths, h, if_false]
      exact List.Sublist.cons₂ _ (driveMonths_sublist nowY nowM rest)

/-- Over a chronologically sorted iteration order, the driver processes
exactly the pairs that are not in the future: stopping at the first
future pair loses no non-future pair and visits no future one. -/
theorem driveMonths_mem (nowY nowM : Nat) : ∀ l, List.Pairwise monthLt l →
    ∀ p : Nat × Nat, p ∈ driveMonths nowY nowM l ↔
      (p ∈ l ∧ monthIsFuture nowY nowM p.1 p.2 = false)
  | [], _, p => by simp [driveMonths]
  | q :: rest, hpw, p => by
    rw [List.pairwise_cons] at hpw
    have ih := driveMonths_mem nowY nowM rest hpw.2 p
    simp only [driveMonths]
    cases hq : monthIsFuture nowY nowM q.1 q.2
    · rw [if_neg (by simp), List.mem_cons, List.mem_cons, ih]
      constructor
      · rintro (rfl | ⟨hm, hf⟩)
        · exact ⟨Or.inl rfl, hq⟩
        · exact ⟨Or.inr hm, hf⟩
      · rintro ⟨rfl | hm, hf⟩
        · exact Or.inl rfl
        · exact Or.inr ⟨hm, hf⟩
    · rw [if_pos rfl]
      simp only [List.not_mem_nil, false_iff]
      rintro ⟨hmem, hfut⟩
      rcases List.mem_cons.mp hmem with rfl | hmem2
      · rw [hq] at hfut
        cases hfut
      · rw [monthIsFuture_mono (hpw.1 p hmem2) hq] at hfut
        cases hfut

/-- The months of one year are chronologically sorted. -/
theorem pairwise_monthsOfYear (sy sm ey em y : Nat) :
    List.Pairwise monthLt (monthsOfYear sy sm ey em y) := by
  unfold monthsOfYear
  rw [List.pairwise_map]
  exact (List.pairwise_lt_range' _ _).imp (fun hab => Or.inr ⟨rfl, hab⟩)

/-- Flattening per-year month blocks over a sorted year list yields a
chronologically sorted pair list. -/
theorem pairwise_flattenMonths (sy sm ey em : Nat) : ∀ ys : List Nat,
    List.Pairwise (fun a b => a < b) ys →
    List.Pairwise monthLt ((ys.map (monthsOfYear sy sm ey em)).flatten)
  | [], _ => by simp
  | y :: ys, hpw => by
    rw [List.pairwise_cons] at hpw
    simp only [List.map_cons, List.flatten_cons]
    rw [List.pairwise_append]
    refine ⟨pairwise_monthsOfYear sy sm ey em y,
      pairwise_flattenMonths sy sm ey em ys hpw.2, ?_⟩
    intro a ha b hb
    obtain ⟨l2, hl2, hbl⟩ := List.mem_flatten.mp hb
    obtain ⟨y2, hy2, rfl⟩ := List.mem_map.mp hl2
    obtain ⟨m1, hb1, rfl⟩ := by simpa [monthsOfYear] using ha
    obtain ⟨m2, hb2, rfl⟩ := by simpa [monthsOfYear] using hbl
    exact Or.inl (hpw.1 y2 hy2)

/-- The full iteration order of the nested loops is chronologically
sorted. -/
theorem pairwise_rangeMonths (sy sm ey em : Nat) :
    List.Pairwise monthLt (rangeMonths sy sm ey em) :=
  pairwise_flattenMonths sy sm ey em _ (List.pairwise_lt_range' sy (ey + 1 - sy))

/-- Claim C7: for every configured closed range and every current date,
the calendar driver visits pairs in strictly chronological order, and a
pair is processed iff it lies in the configured range and is not
strictly after the current (year, month) — so the first future pair and
everything after it is never processed. -/
theorem calendar_driver_visits (sy sm ey em nowY nowM : Nat) :
    List.Pairwise monthLt (visitedMonths nowY nowM sy sm ey em) ∧
    ∀ p : Nat × Nat, p ∈ visitedMonths nowY nowM sy sm ey em ↔
      (p ∈ rangeMonths sy sm ey em ∧ monthIsFuture nowY nowM p.1 p.2 = false) :=
  ⟨List.Pairwise.sublist (driveMonths_sublist nowY nowM _) (pairwise_rangeMonths sy sm ey em),
   fun p => driveMonths_mem nowY nowM _ (pairwise_rangeMonths sy sm ey em) p⟩

/-- Witness for C7 at the configured constants with a March 2010 clock:
March 2010 is processed, April 2010 is not. -/
theorem calendar_driver_visits_witness :
    (2010, 3) ∈ visitedMonths 2010 3 START_YEAR START_MONTH END_YEAR END_MONTH ∧
    (2010, 4) ∉ visitedMonths 2010 3 START_YEAR START_MONTH END_YEAR END_MONTH := by
  constructor
  · exact ((calendar_driver_visits START_YEAR START_MONTH END_YEAR END_MONTH 2010 3).2
      (2010, 3)).mpr ⟨by decide, by decide⟩
  · intro h
    have h2 := ((calendar_driver_visits START_YEAR START_MONTH END_YEAR END_MONTH 2010 3).2
      (2010, 4)).mp h
    exact absurd h2.2 (by decide)

/-- Every character kept by `takeWhile` satisfies the predicate. -/
theorem takeWhileAll (p : Char → Bool) (l : List Char) :
    ((l.takeWhile p).all p) = true := by
  rw [List.all_eq_true]
  intro x hx
  exact List.mem_takeWhile_imp hx

/-- A capture returned by the heading matcher is a non-empty string of
digits. -/
theorem matchHeading_digits (l : List Char) (d : String) (r : List Char)
    (h : matchHeading l = some (d, r)) :
    d.data ≠ [] ∧ d.data.all isDigitChar = true := by
  unfold matchHeading at h
  split at h
  · split at h
    · exact absurd h (by simp)
    · rename_i hne
      split at h
      · simp only [Option.some.injEq, Prod.mk.injEq] at h
        obtain ⟨rfl, rfl⟩ := h
        constructor
        · intro hnil
          apply hne
          rw [List.isEmpty_iff]
          exact hnil
        · exact takeWhileAll isDigitChar _
      · exact absurd h (by simp)
  · exact absurd h (by simp)

/-- Shape invariant of the split result: a text piece, then alternating
(digit capture, text piece) groups — so every odd position holds a
non-empty digit string. -/
inductive AltShape : List String → Prop where
  | single (t : String) : AltShape [t]
  | cons (t d : String) (rest : List String) (hne : d.data ≠ [])
      (hdig : d.data.all isDigitChar = true) (h : AltShape rest) : AltShape (t :: d :: rest)

/-- The scanner always produces a list of the alternating shape. -/
theorem altShape_scanSplitAux : ∀ (fuel : Nat) (acc l : List Char),
    AltShape (scanSplitAux fuel acc l)
  | fuel, acc, [] => by
    cases fuel <;> exact AltShape.single _
  | 0, acc, c :: rest => AltShape.single _
  | fuel + 1, acc, c :: rest => by
    cases hm : matchHeading (c :: rest) with
    | none =>
      simpa [scanSplitAux, hm] using altShape_scanSplitAux fuel (c :: acc) rest
    | some pr =>
      obtain ⟨day, after⟩ := pr
      have hd := matchHeading_digits (c :: rest) day after hm
      simp only [scanSplitAux, hm]
      exact AltShape.cons _ _ _ hd.1 hd.2 (altShape_scanSplitAux fuel [] after)

/-- From the alternating shape: every produced pair's day numeral is a
non-empty digit string. -/
theorem altShape_pairs : ∀ l : List String, AltShape l →
    ∀ p ∈ pairsAux l.tail, p.1.data ≠ [] ∧ p.1.data.all isDigitChar = true := by
  intro l h
  induction h with
  | single t => simp [pairsAux]
  | cons t d rest hne hdig hrest ih =>
    cases rest with
    | nil => cases hrest
    | cons c rest2 =>
      intro p hp
      rcases (by simpa [pairsAux] using hp : p = (d, pyStrip c) ∨ p ∈ pairsAux rest2) with
        heq | hmem
      · rw [heq]
        exact ⟨hne, hdig⟩
      · exact ih p (by simpa [pairsAux] using hmem)

/-- Claim C8 (amended): the source archive title is exactly
`Wiktionary:Word of the day/Archive/<year>/<MonthName>`, and every task
built from a month text gets the target title
`Wiktionary:Word of the day/<year>/<MonthName> <day>` where `<day>` is
the non-empty digit string captured verbatim from the heading (leading
zeros included, no re-formatting). -/
theorem page_title_formats (wikitext : String) (year : Nat) (mn : String) :
    source_page_title year mn =
      "Wiktionary:Word of the day/Archive/" ++ toString year ++ "/" ++ mn ∧
    ∀ t ∈ (buildTasks year mn (sectionPairs wikitext)).1,
      target_page_title t.year t.month_name t.day =
        "Wiktionary:Word of the day/" ++ toString year ++ "/" ++ mn ++ " " ++ t.day ∧
      t.day.data ≠ [] ∧ t.day.data.all isDigitChar = true := by
  refine ⟨rfl, ?_⟩
  intro t ht
  rw [(buildTasksAuxSpec year mn (sectionPairs wikitext)).1] at ht
  obtain ⟨p, hp, rfl⟩ := List.mem_map.mp ht
  have hpd := altShape_pairs (reSplit wikitext)
    (altShape_scanSplitAux wikitext.data.length [] wikitext.data) p
    (List.mem_filter.mp hp).1
  exact ⟨rfl, hpd.1, hpd.2⟩

/-- Witness for C8 (amended) at a heading written with a padded day. -/
theorem page_title_formats_witness :
    target_page_title (2006 : Nat) "January" "01" =
      "Wiktionary:Word of the day/" ++ toString (2006 : Nat) ++ "/" ++ "January" ++ " " ++ "01" ∧
    ("01" : String).data ≠ [] ∧ ("01" : String).data.all isDigitChar = true :=
  (page_title_formats "== 01 ==\n\x7b\x7bwotd|pad\x7d\x7d" 2006 "January").2
    ⟨2006, "January", "01", "\x7b\x7bwotd|pad\x7d\x7d"⟩ (by decide)

/-- Counterexample to C8 as stated: a heading for day 1 written `== 01 ==`
yields the target title `.../January 01`, not `.../January 1` — the day
numeral is not unpadded. -/
theorem padded_day_title_cx :
    ((buildTasks 2006 "January" (sectionPairs "== 01 ==\n\x7b\x7bwotd|pad\x7d\x7d")).1.map
      (fun t => target_page_title t.year t.month_name t.day)) =
      ["Wiktionary:Word of the day/2006/January 01"] ∧
    "Wiktionary:Word of the day/2006/January 01" ≠
      "Wiktionary:Word of the day/2006/January 1" := by
  decide
